import Mathlib

/-!
Verification of the Hertz invoice engine (`app.py`, class `HertzProcessor`).

The development shallowly embeds the core of the program:

* the field parsers `parse_preventivo` (estimates) and `parse_purchase_order`
  (purchase orders), including the specific regular-expression searches the
  source performs, modelled as executable functions on character lists;
* the ingestion gate `process_pdf` (de-duplication and "already invoiced"
  checks over the repository state);
* the matcher inside `get_stats` (here `computeMatches`);
* the invoice generator `generate_xml`, with its per-category, per-year
  numbering protocol and its repository mutations.

Money amounts (Python floats) are modelled as rationals; the XML document body
is not modelled (no claim mentions its content) — only the mutations,
the issued number, the generated filename and the fallible effects around it.
Failures of the XML pretty-printer, of the invoice-file write and of the
state save are modelled by a `GenEnv` oracle, because the source lets
exceptions from those operations escape `generate_xml` mid-method, leaving
the in-memory `self.data` exactly as mutated so far.
-/

namespace Hertz

/-! ### Character and string helpers

Python string operations used by the source, modelled over `List Char`.
`\s`, `str.upper`, `str.strip`, `\d` are modelled on their ASCII behaviour
(the documents the program reads are ASCII apart from the euro sign).  -/

/-- Python whitespace for `str.strip` and the regex class `\s` (ASCII part). -/
def isPyWs (c : Char) : Bool :=
  c = ' ' || c = '\t' || c = '\n' || c = '\r' || c = '\x0b' || c = '\x0c'

/-- The regex class `[A-Z0-9]`. -/
def isUpperAlnum (c : Char) : Bool :=
  c.isDigit || ('A' ≤ c && c ≤ 'Z')

/-- The regex class `[\d.,]` (digits, dot, comma). -/
def isNumPunct (c : Char) : Bool :=
  c.isDigit || c = '.' || c = ','

/-- The regex class of the two date separators, slash and hyphen. -/
def isSep (c : Char) : Bool :=
  c = '/' || c = '-'

/-- Numeric value of a decimal digit character. -/
def charVal (c : Char) : Nat := c.toNat - 48

/-- Value of a digit string, most significant first. -/
def natOfDigits (ds : List Char) : Nat :=
  ds.foldl (fun a c => a * 10 + charVal c) 0

/-- Does `pat` occur at the very start of `hay`? (regex literal match). -/
def leadsWith : List Char → List Char → Bool
  | [], _ => true
  | _ :: _, [] => false
  | p :: ps, h :: hs => p == h && leadsWith ps hs

/-- Python `needle in hay` on strings: substring containment. -/
def containsSubL (needle : List Char) : List Char → Bool
  | [] => leadsWith needle []
  | c :: cs => leadsWith needle (c :: cs) || containsSubL needle cs

/-- Substring containment on `String`. -/
def containsSub (hay needle : String) : Bool :=
  containsSubL needle.toList hay.toList

/-- The suffix of `hay` right after the first occurrence of `needle`
(`re.search` on a literal pattern), `none` when `needle` does not occur. -/
def afterFirst (needle : List Char) : List Char → Option (List Char)
  | [] => if leadsWith needle [] then some [] else none
  | c :: cs =>
    if leadsWith needle (c :: cs) then some (List.drop needle.length (c :: cs))
    else afterFirst needle cs

/-- Longest run of characters satisfying `cls` at the start (greedy `cls*`). -/
def takeRun (cls : Char → Bool) : List Char → List Char
  | [] => []
  | c :: cs => if cls c then c :: takeRun cls cs else []

/-- Drop the longest whitespace run at the start (greedy `\s*`). -/
def dropWs : List Char → List Char
  | [] => []
  | c :: cs => if isPyWs c then dropWs cs else c :: cs

/-- Python `str.upper()` (ASCII behaviour). -/
def upperStr (s : String) : String :=
  String.mk (s.toList.map Char.toUpper)

/-- Python `str.strip()` with no argument (ASCII whitespace). -/
def pyStrip (s : String) : String :=
  String.mk (((s.toList.dropWhile isPyWs).reverse.dropWhile isPyWs).reverse)

/-- Python `str.replace(pat, rep)` where `pat` is a single character — the
only form the source uses (`','`, `'€'`, `'-'`). -/
def replaceChar (pat : Char) (rep : List Char) : List Char → List Char
  | [] => []
  | c :: cs => if c = pat then rep ++ replaceChar pat rep cs
               else c :: replaceChar pat rep cs

/-- `str.replace` with a one-character pattern, on `String`. -/
def strReplace (s : String) (pat : Char) (rep : String) : String :=
  String.mk (replaceChar pat rep.toList s.toList)

/-- Python `str.rstrip('T')`: remove every trailing `'T'`. -/
def rstripT (s : String) : String :=
  String.mk ((s.toList.reverse.dropWhile (fun c => c = 'T')).reverse)

/-- Python truthiness of an optional string (`None` and `''` are falsy). -/
def pyTruthy : Option String → Bool
  | none => false
  | some s => s ≠ ""

/-- Python `a or b or d` on optional strings with a string default, as in
`prev.get('targa') or po.get('targa') or 'NOTARGA'`. -/
def pyOrElse (a b : Option String) (d : String) : String :=
  if pyTruthy a then a.getD "" else if pyTruthy b then b.getD "" else d

/-- Python `f"{x}"` of an optional string: `None` prints as `"None"`. -/
def pyShow : Option String → String
  | none => "None"
  | some s => s

/-- `" ".join` style joining used for Python `' '.join(...)` and list reprs. -/
def joinSep (sep : String) : List String → String
  | [] => ""
  | [s] => s
  | s :: r₂ :: rest => s ++ sep ++ joinSep sep (r₂ :: rest)

/-- Lowercase hexadecimal digit. -/
def hexDigit (n : Nat) : Char :=
  if n < 10 then Char.ofNat (48 + n) else Char.ofNat (87 + n)

/-- Two lowercase hex digits of a byte, as in Python `\xHH` escapes. -/
def hex2 (n : Nat) : String :=
  String.mk [hexDigit (n / 16 % 16), hexDigit (n % 16)]

/-- Python `repr` of one string (as used through `str(row)` on a list of
strings): quote choice and the escapes CPython produces for the characters
that can occur here.  Non-ASCII printable characters are kept as-is. -/
def pyReprStr (s : String) : String :=
  let cs := s.toList
  let q : Char := if cs.contains '\'' && !cs.contains '"' then '"' else '\''
  let esc : Char → String := fun c =>
    if c = '\\' then "\\\\"
    else if c = q then "\\" ++ String.mk [q]
    else if c = '\n' then "\\n"
    else if c = '\r' then "\\r"
    else if c = '\t' then "\\t"
    else if c.toNat < 32 || c.toNat = 127 then "\\x" ++ hex2 c.toNat
    else String.mk [c]
  String.mk [q] ++ String.join (cs.map esc) ++ String.mk [q]

/-- Python `str(row)` for a list of strings: `['a', 'b', ...]`. -/
def pyReprList (cells : List String) : String :=
  "[" ++ joinSep ", " (cells.map pyReprStr) ++ "]"

/-- Python `str(n).zfill(3)` on a non-negative integer. -/
def zfill3 (n : Nat) : String :=
  let s := Nat.repr n
  if 3 ≤ s.length then s else String.mk (List.replicate (3 - s.length) '0') ++ s

/-- Zero-padded two-digit rendering (`strftime` `%m`, `%d`). -/
def pad2 (n : Nat) : String :=
  if n < 10 then "0" ++ Nat.repr n else Nat.repr n

/-- Zero-padded four-digit rendering (`strftime` `%Y` for ordinary years). -/
def pad4 (n : Nat) : String :=
  if n < 10 then "000" ++ Nat.repr n
  else if n < 100 then "00" ++ Nat.repr n
  else if n < 1000 then "0" ++ Nat.repr n
  else Nat.repr n

/-- Python `int()` truncation toward zero of a rational. -/
def ratTrunc (q : ℚ) : ℤ := if q < 0 then ⌈q⌉ else ⌊q⌋

/-- Exponent part of a float literal: `[eE][+-]?digits` at the end of the
input, returning the scale factor; `some 1` on empty input. -/
def parseExp : List Char → Option ℚ
  | [] => some 1
  | c :: t =>
    if c = 'e' || c = 'E' then
      let (pos, t2) : Bool × List Char :=
        match t with
        | '+' :: u => (true, u)
        | '-' :: u => (false, u)
        | u => (true, u)
      let ed := takeRun Char.isDigit t2
      if ed.isEmpty then none
      else if (List.drop ed.length t2).isEmpty then
        some (if pos then ((10 : ℚ) ^ natOfDigits ed) else ((10 : ℚ) ^ natOfDigits ed)⁻¹)
      else none
    else none

/-- Python `float()` on ordinary decimal and scientific literals
(`[+-]?(digits[.digits?]|.digits)([eE][+-]?digits)?`).  The special values
`inf`/`nan` and underscore digit separators are not modelled: they cannot be
produced by the numeric fields these documents carry. -/
def pyFloat? (s : String) : Option ℚ :=
  let cs0 := s.toList
  let (sgn, cs) : ℚ × List Char :=
    match cs0 with
    | '+' :: t => (1, t)
    | '-' :: t => (-1, t)
    | t => (1, t)
  let ip := takeRun Char.isDigit cs
  let cs1 := List.drop ip.length cs
  match cs1 with
  | '.' :: t =>
    let fp := takeRun Char.isDigit t
    if ip.isEmpty && fp.isEmpty then none
    else
      (parseExp (List.drop fp.length t)).map
        (fun e => sgn * ((natOfDigits ip : ℚ) + (natOfDigits fp : ℚ) / (10 : ℚ) ^ fp.length) * e)
  | rest =>
    if ip.isEmpty then none
    else (parseExp rest).map (fun e => sgn * (natOfDigits ip : ℚ) * e)

/-! ### The specific regular-expression searches of the source

Each searcher models one `re.search` call.  The patterns are simple enough
that their backtracking is fully determined: a greedy run of one character
class followed by a character outside that class never backtracks into the
run, so every searcher below is a direct scan. -/

/-- `re.search(label + r'\s*(RUN+)', text)` where `RUN` is a character class:
used for `Pratica Fornitore:`, `Pratica Hertz:`, `Targa:`, `Telaio:`, `Km:`,
`WD:`, `Plate Number:` and similar labelled fields.  Scans position by
position; at an occurrence of the label, skips `\s*` and requires a non-empty
run of `cls`; otherwise search continues at the next position. -/
def searchLabeledRun (label : List Char) (cls : Char → Bool) : List Char → Option (List Char)
  | [] => none
  | c :: cs =>
    if leadsWith label (c :: cs) then
      let run := takeRun cls (dropWs (List.drop label.length (c :: cs)))
      if run.isEmpty then searchLabeledRun label cls cs else some run
    else searchLabeledRun label cls cs

/-- First maximal digit run in the input, `none` when there is no digit:
the `.*?(\d+)` tail (with `re.DOTALL`) of the purchase-order number pattern. -/
def firstDigitRun : List Char → Option (List Char)
  | [] => none
  | c :: cs => if c.isDigit then some (c :: takeRun Char.isDigit cs) else firstDigitRun cs

/-- `re.search(r'PURCHASE ORDER #.*?(\d+)', text, re.DOTALL)`: after the first
occurrence of the literal, the lazy `.*?` puts the greedy `(\d+)` at the first
digit that follows.  When no digit follows the first occurrence none follows a
later one either, so the whole search fails. -/
def searchPoNumber (text : List Char) : Option (List Char) :=
  match afterFirst ("PURCHASE ORDER #".toList) text with
  | none => none
  | some rest => firstDigitRun rest

/-- First maximal `[\d.,]+` run that starts at a digit. -/
def firstDigitNumRun : List Char → Option (List Char)
  | [] => none
  | c :: cs => if c.isDigit then some (c :: takeRun isNumPunct cs) else firstDigitNumRun cs

/-- Last dot-or-comma character of the input, if any. -/
def lastPunct : List Char → Option Char
  | [] => none
  | c :: cs =>
    match lastPunct cs with
    | some p => some p
    | none => if c = '.' || c = ',' then some c else none

/-- `re.search(r'Smaltimento Rifiuti[^\d]*(€?[\d.,]+)', text)`.  The greedy
`[^\d]*` consumes everything up to the first digit after the label (including
any euro sign), so the capture is the maximal `[\d.,]+` run from that digit.
When no digit follows, backtracking of `[^\d]*` from longest to shortest makes
the capture the last lone dot-or-comma after the label (whose `float()` then
fails in the caller), and the search fails when not even one exists. -/
def searchSmalt (text : List Char) : Option (List Char) :=
  match afterFirst ("Smaltimento Rifiuti".toList) text with
  | none => none
  | some rest =>
    match firstDigitNumRun rest with
    | some run => some run
    | none =>
      match lastPunct rest with
      | some p => some [p]
      | none => none

/-- Attempt of `ore\s+([\d.,]+)\s*x\s*([\d.,]+)` right after an occurrence of
the literal `ore`: ≥1 whitespace, a non-empty `[\d.,]+` run, optional
whitespace, the letter `x`, optional whitespace, a non-empty `[\d.,]+` run.
The classes are disjoint from whitespace and from `x`, so no backtracking. -/
def oreHere (rest : List Char) : Option (List Char × List Char) :=
  let w := takeRun isPyWs rest
  if w.isEmpty then none
  else
    let r1s := List.drop w.length rest
    let run1 := takeRun isNumPunct r1s
    if run1.isEmpty then none
    else
      let afterX := dropWs (List.drop run1.length r1s)
      match afterX with
      | 'x' :: t =>
        let run2 := takeRun isNumPunct (dropWs t)
        if run2.isEmpty then none else some (run1, run2)
      | _ => none

/-- `re.search(r'ore\s+([\d.,]+)\s*x\s*([\d.,]+)', row_text)`: scan for an
occurrence of `ore` whose continuation matches. -/
def oreScan : List Char → Option (List Char × List Char)
  | [] => none
  | c :: cs =>
    if leadsWith ("ore".toList) (c :: cs) then
      match oreHere (List.drop 3 (c :: cs)) with
      | some r => some r
      | none => oreScan cs
    else oreScan cs

/-! ### Date tokens and `strptime` re-parsing

The date regex `(\d{1,2}[SEP]\d{1,2}[SEP]\d{4})` captures two 1-or-2-digit
groups, two separators and a 4-digit year; `RawDate` records the values,
whether each group had two digits (the `strptime` patterns distinguish the
two), and the separator characters. -/

structure RawDate where
  a : Nat
  aTwo : Bool
  s1 : Char
  b : Nat
  bTwo : Bool
  s2 : Char
  y : Nat
deriving DecidableEq, Repr

/-- The `_strptime` pattern for `%d`: `3[01]|[12]\d|0[1-9]|[1-9]` — two-digit
values 01–31, or one digit 1–9. -/
def dayPatOk (v : Nat) (two : Bool) : Bool :=
  if two then 1 ≤ v && v ≤ 31 else 1 ≤ v && v ≤ 9

/-- The `_strptime` pattern for `%m`: `1[0-2]|0[1-9]|[1-9]` — two-digit
values 01–12, or one digit 1–9. -/
def monthPatOk (v : Nat) (two : Bool) : Bool :=
  if two then 1 ≤ v && v ≤ 12 else 1 ≤ v && v ≤ 9

/-- Gregorian leap year, as `datetime` validates it. -/
def isLeap (y : Nat) : Bool :=
  y % 4 == 0 && (y % 100 != 0 || y % 400 == 0)

/-- Days in a month, as `datetime` validates them. -/
def daysInMonth (y m : Nat) : Nat :=
  if m = 2 then (if isLeap y then 29 else 28)
  else if m = 4 || m = 6 || m = 9 || m = 11 then 30
  else 31

/-- `datetime.strptime` for one `%d…%m…%Y` or `%m…%d…%Y` layout, given the
day group, the month group and the year: the groups must fit their patterns
and the combination must be a real calendar date in `datetime`'s year range.
Returns `(year, month, day)`. -/
def strptimeDate (dv : Nat) (dTwo : Bool) (mv : Nat) (mTwo : Bool) (y : Nat) :
    Option (Nat × Nat × Nat) :=
  if dayPatOk dv dTwo && monthPatOk mv mTwo && 1 ≤ y && y ≤ 9999 &&
     dv ≤ daysInMonth y mv
  then some (y, mv, dv) else none

/-- One layout attempt on a captured token: the separator of the layout must
be both separators of the token; `dayFirst` selects `%d_%m_%Y` versus
`%m_%d_%Y`. -/
def tryLayout (sep : Char) (dayFirst : Bool) (rd : RawDate) : Option (Nat × Nat × Nat) :=
  if rd.s1 = sep ∧ rd.s2 = sep then
    if dayFirst then strptimeDate rd.a rd.aTwo rd.b rd.bTwo rd.y
    else strptimeDate rd.b rd.bTwo rd.a rd.aTwo rd.y
  else none

/-- `strftime('%Y-%m-%d')` of a parsed date. -/
def isoOf : Nat × Nat × Nat → String
  | (y, m, d) => pad4 y ++ "-" ++ pad2 m ++ "-" ++ pad2 d

/-- The normalisation loop of `parse_purchase_order`: try the four layouts
`%d/%m/%Y`, `%d-%m-%Y`, `%m/%d/%Y`, `%m-%d-%Y` in that order on the captured
token, emit the first success as `YYYY-MM-DD`, else leave the date unset. -/
def normalizePODate (rd : RawDate) : Option String :=
  match tryLayout '/' true rd with
  | some t => some (isoOf t)
  | none =>
    match tryLayout '-' true rd with
    | some t => some (isoOf t)
    | none =>
      match tryLayout '/' false rd with
      | some t => some (isoOf t)
      | none =>
        match tryLayout '-' false rd with
        | some t => some (isoOf t)
        | none => none

/-- `\d{4}` (exactly four digits) then build the `RawDate`. -/
def matchYear4 (a : Nat) (aTwo : Bool) (s1 : Char) (b : Nat) (bTwo : Bool) (s2 : Char) :
    List Char → Option RawDate
  | y1 :: y2 :: y3 :: y4 :: _ =>
    if y1.isDigit && y2.isDigit && y3.isDigit && y4.isDigit then
      some ⟨a, aTwo, s1, b, bTwo, s2,
            charVal y1 * 1000 + charVal y2 * 100 + charVal y3 * 10 + charVal y4⟩
    else none
  | _ => none

/-- Second separator of the date pattern. -/
def matchDateSep2 (a : Nat) (aTwo : Bool) (s1 : Char) (b : Nat) (bTwo : Bool) :
    List Char → Option RawDate
  | s :: rest => if isSep s then matchYear4 a aTwo s1 b bTwo s rest else none
  | [] => none

/-- Second `\d{1,2}` group, greedy (two digits tried before one, as the regex
engine does). -/
def matchDateB (a : Nat) (aTwo : Bool) (s1 : Char) : List Char → Option RawDate
  | [] => none
  | c1 :: rest1 =>
    if c1.isDigit then
      let one := matchDateSep2 a aTwo s1 (charVal c1) false rest1
      match rest1 with
      | c2 :: rest2 =>
        if c2.isDigit then
          match matchDateSep2 a aTwo s1 (charVal c1 * 10 + charVal c2) true rest2 with
          | some rd => some rd
          | none => one
        else one
      | [] => one
    else none

/-- First separator of the date pattern. -/
def matchDateSep1 (a : Nat) (aTwo : Bool) : List Char → Option RawDate
  | s :: rest => if isSep s then matchDateB a aTwo s rest else none
  | [] => none

/-- The date pattern `\d{1,2}[SEP]\d{1,2}[SEP]\d{4}` anchored at the start of
the input, with the regex engine's greedy `\d{1,2}` backtracking. -/
def matchDateFromA : List Char → Option RawDate
  | [] => none
  | c1 :: rest1 =>
    if c1.isDigit then
      let one := matchDateSep1 (charVal c1) false rest1
      match rest1 with
      | c2 :: rest2 =>
        if c2.isDigit then
          match matchDateSep1 (charVal c1 * 10 + charVal c2) true rest2 with
          | some rd => some rd
          | none => one
        else one
      | [] => one
    else none

/-- `re.search(r'(\d{1,2}[SEP]\d{1,2}[SEP]\d{4})', text)`: the bare fallback
search, position by position. -/
def searchBareDate : List Char → Option RawDate
  | [] => none
  | c :: cs =>
    match matchDateFromA (c :: cs) with
    | some rd => some rd
    | none => searchBareDate cs

/-- `re.search(r'Date:\s*(\d{1,2}[SEP]\d{1,2}[SEP]\d{4})', text)`: labelled
search tried first by the source. -/
def searchLabeledDate : List Char → Option RawDate
  | [] => none
  | c :: cs =>
    if leadsWith ("Date:".toList) (c :: cs) then
      match matchDateFromA (dropWs (List.drop 5 (c :: cs))) with
      | some rd => some rd
      | none => searchLabeledDate cs
    else searchLabeledDate cs

/-! ### Data model

The records carry the fields the verified operations read or write.  The
`id`/timestamp bookkeeping fields, the estimate's `veicolo` line, the
purchase-order fields that only appear verbatim inside the rendered XML body
(`vin`, `unit_number`, `model`, `mileage`) and the purchase order's stored
`total` (read by nothing) are not modelled: no verified operation branches
on them. -/

/-- One line item of an estimate (`data['items']` entries). -/
structure Item where
  description : String
  qty : ℚ
  price : ℚ
  discount : ℤ
  total : ℚ
  codice_ricambio : Option String
deriving DecidableEq, Repr

/-- A parsed estimate (`parse_preventivo` result). -/
structure Preventivo where
  filename : String
  pratica_fornitore : Option String
  pratica_hertz : Option String
  targa : Option String
  telaio : Option String
  km : Option String
  items : List Item
  totale : ℚ
deriving DecidableEq, Repr

/-- A parsed purchase order (`parse_purchase_order` result). -/
structure PurchaseOrder where
  filename : String
  po_number : Option String
  pratica_hertz : Option String
  targa : Option String
  date : Option String
  has_tyres : Bool
  description : String
deriving DecidableEq, Repr

/-- A generated-invoice record (`fatture_generate` entries). -/
structure Fattura where
  po_number : Option String
  targa : String
  pratica_hertz : Option String
  filename : String
  numero_fattura : Nat
  tipo : String
  totale : ℚ
  data_po : Option String
deriving DecidableEq, Repr

/-- The numbering state (`data['config']`). -/
structure Config where
  last_number_hg : Nat
  last_number_hm : Nat
  year : Nat
deriving DecidableEq, Repr

/-- The repository (`self.data` without the e-mail bookkeeping). -/
structure State where
  preventivi : List Preventivo
  purchase_orders : List PurchaseOrder
  fatture_generate : List Fattura
  config : Config
deriving DecidableEq, Repr

/-- One extracted table: rows of optional cells, as `pdfplumber` returns
them. -/
abbrev PTable := List (List (Option String))

/-! ### Field parsers -/

/-- `parse_num` inside `_extract_items_from_table`:
`float(str(s).replace(',', '.').replace('€', '').strip())` with every failure
mapped to 0, and 0 for a falsy cell. -/
def parse_num (s : String) : ℚ :=
  if s = "" then 0
  else (pyFloat? (pyStrip (strReplace (strReplace s ',' ".") '€' ""))).getD 0

/-- Header/summary tokens: a row whose `str(row)` contains one is skipped. -/
def headerTokens : List String := ["C.R.", "Voci di Danno", "IMPONIBILE", "Totale tempi"]

/-- Description keywords excluded from the priced-item path. -/
def itemKw : List String := ["Ricambi", "Materiale", "Smaltimento", "Manodopera", "TOTALI", "Note:"]

/-- One row of `_extract_items_from_table`: `none` when the row is skipped,
`some item` when it yields a priced line item. -/
def rowItem (row : List (Option String)) : Option Item :=
  if row.isEmpty ∨ row.length < 20 then none
  else
    let r := row.map (fun c => c.getD "")
    if headerTokens.any (fun h => containsSub (pyReprList r) h) then none
    else
      let r0 := r.getD 0 ""
      let codice : Option String := if r0 = "" then none else some (pyStrip r0)
      let descRaw := r.getD 1 ""
      if descRaw = "" then none
      else
        let d := pyStrip descRaw
        if d = "" then none
        else if itemKw.any (fun kw => containsSub d kw) then none
        else
          let tempo := parse_num (r.getD 18 "")
          let qty0 := parse_num (r.getD 19 "")
          let prezzo := parse_num (r.getD 20 "")
          let sconto := parse_num (r.getD 23 "0")
          let totale := parse_num (r.getD 24 "")
          let qty1 := if qty0 = 0 ∧ 1 < tempo then tempo else qty0
          let qty := if qty1 = 0 then 1 else qty1
          if 0 < totale then
            let full_desc :=
              match codice with
              | some c => if c = "" then d else d ++ " - C.R: " ++ c
              | none => d
            some ⟨full_desc, qty, prezzo, (if sconto = 0 then 0 else ratTrunc sconto),
                  totale, codice⟩
          else none

/-- `_extract_items_from_table`: accumulate the priced rows of all tables in
order. -/
def extractItemsFromTable (tables : List PTable) : List Item :=
  tables.foldl
    (fun acc tab =>
      tab.foldl
        (fun a row =>
          match rowItem row with
          | some it => a ++ [it]
          | none => a) acc)
    []

/-- Decimal rendering of a non-negative rational whose denominator divides a
power of ten, following Python `str()` on such float values (`'2.5'`,
`'3.0'`); other denominators cannot be produced by `pyFloat?`.  Used only
inside the labour-item description text. -/
def ratRepr (q : ℚ) : String :=
  let sign := if q < 0 then "-" else ""
  let q := |q|
  let k := (List.range 40).find? (fun k => ((10 : ℚ) ^ k * q).den = 1)
  match k with
  | none => sign ++ reprStr q
  | some k =>
    let n := ((10 : ℚ) ^ k * q).num.toNat
    let ipart := Nat.repr (n / 10 ^ k)
    let fdigits := Nat.repr (n % 10 ^ k)
    let fpadded := String.mk (List.replicate (k - fdigits.length) '0') ++ fdigits
    let ftrimmed := String.mk (fpadded.toList.reverse.dropWhile (fun c => c = '0')).reverse
    sign ++ ipart ++ "." ++ (if ftrimmed = "" then "0" else ftrimmed)

/-- The three labour categories of the synthetic-item loop. -/
def tipi : List String := ["meccanica", "carrozzeria", "verniciatura"]

/-- `' '.join(str(c) for c in row if c)`: the row text the labour patterns
are searched in. -/
def rowText (row : List (Option String)) : String :=
  joinSep " " (row.filterMap (fun c =>
    match c with
    | some s => if s = "" then none else some s
    | none => none))

/-- The labour pass of `parse_preventivo` on one row text: for each of the
three categories, when `Manodopera <tipo>` occurs in the row text and the
hours-times-rate pattern matches, append the computed labour item unless one
with that label is already present. -/
def manoRow (rt : String) (items : List Item) : List Item :=
  tipi.foldl
    (fun acc tipo =>
      if containsSub rt ("Manodopera " ++ tipo) then
        match oreScan rt.toList with
        | none => acc
        | some (r1, r2) =>
          match pyFloat? (strReplace (String.mk r1) ',' "."),
                pyFloat? (strReplace (String.mk r2) ',' ".") with
          | some ore, some tariffa =>
            let tot := ore * tariffa
            if 0 < tot ∧ acc.any (fun i => containsSub i.description ("Manodopera " ++ tipo)) = false
            then acc ++ [⟨"Manodopera " ++ tipo ++ " (" ++ ratRepr ore ++ "h x " ++
                          ratRepr tariffa ++ "€/h)", 1, tot, 0, tot, none⟩]
            else acc
          | _, _ => acc
      else acc)
    items

/-- The labour pass over all tables and rows (empty rows skipped, as
`if not row: continue`). -/
def manodoperaPass (tables : List PTable) (items : List Item) : List Item :=
  tables.foldl
    (fun acc tab =>
      tab.foldl
        (fun a row => if row.isEmpty then a else manoRow (rowText row) a) acc)
    items

/-- The disposal-fee pass of `parse_preventivo`: parse the captured amount
(`.replace('€', '').replace(',', '.').strip()` then `float`), and append the
synthetic item when positive and not already present from the table path. -/
def smaltPass (text : List Char) (items : List Item) : List Item :=
  match searchSmalt text with
  | none => items
  | some cap =>
    match pyFloat? (pyStrip (strReplace (strReplace (String.mk cap) '€' "") ',' ".")) with
    | none => items
    | some v =>
      if 0 < v ∧ items.any (fun i => containsSub i.description "Smaltimento") = false
      then items ++ [⟨"Smaltimento Rifiuti", 1, v, 0, v, none⟩]
      else items

/-- `parse_preventivo(text, filename, tables)`: labelled scalar fields, table
line items, the synthetic disposal-fee and labour items, and the recomputed
total. -/
def parse_preventivo (text : String) (filename : String) (tables : List PTable) :
    Preventivo :=
  let tl := text.toList
  let items0 := if tables.isEmpty then [] else extractItemsFromTable tables
  let items1 := smaltPass tl items0
  let items2 := manodoperaPass tables items1
  { filename := filename
    pratica_fornitore := (searchLabeledRun ("Pratica Fornitore:".toList) Char.isDigit tl).map String.mk
    pratica_hertz := (searchLabeledRun ("Pratica Hertz:".toList) Char.isDigit tl).map String.mk
    targa := (searchLabeledRun ("Targa:".toList) isUpperAlnum tl).map
      (fun r => rstripT (String.mk r))
    telaio := (searchLabeledRun ("Telaio:".toList) isUpperAlnum tl).map String.mk
    km := (searchLabeledRun ("Km:".toList) Char.isDigit tl).map String.mk
    items := items2
    totale := (items2.map Item.total).sum }

/-- `parse_purchase_order(text, filename)`. -/
def parse_purchase_order (text : String) (filename : String) : PurchaseOrder :=
  let tl := text.toList
  let labeled := (searchLabeledDate tl).bind normalizePODate
  { filename := filename
    po_number := (searchPoNumber tl).map String.mk
    pratica_hertz := (searchLabeledRun ("WD:".toList) Char.isDigit tl).map String.mk
    targa := (searchLabeledRun ("Plate Number:".toList) isUpperAlnum tl).map String.mk
    date :=
      match labeled with
      | some d => some d
      | none => (searchBareDate tl).bind normalizePODate
    has_tyres := containsSub (upperStr text) "TYRES"
    description := String.mk (tl.take 500) }

/-- `detect_type(text)`. -/
inductive DocType
  | preventivo
  | purchase_order
deriving DecidableEq, Repr

/-- `detect_type`: case-insensitive marker search, estimate marker first. -/
def detect_type (text : String) : Option DocType :=
  if containsSub (upperStr text) "PREVENTIVO" then some DocType.preventivo
  else if containsSub (upperStr text) "PURCHASE ORDER" then some DocType.purchase_order
  else none

/-! ### Derived views of the state -/

/-- The natural keys of the active estimates (`pratica_hertz`). -/
def prevKeys (st : State) : List (Option String) :=
  st.preventivi.map (fun p => p.pratica_hertz)

/-- The natural keys of the active purchase orders (`po_number`). -/
def poKeys (st : State) : List (Option String) :=
  st.purchase_orders.map (fun p => p.po_number)

/-- The estimate keys recorded as invoiced. -/
def invoicedPrevKeys (st : State) : List (Option String) :=
  st.fatture_generate.map (fun f => f.pratica_hertz)

/-- The purchase-order keys recorded as invoiced. -/
def invoicedPoKeys (st : State) : List (Option String) :=
  st.fatture_generate.map (fun f => f.po_number)

/-! ### Repository operations -/

/-- The status string `process_pdf` pairs with the parsed document. -/
inductive PdfStatus
  | prevFatturato
  | prevOk
  | poFatturato
  | poOk
deriving DecidableEq, Repr

/-- `process_pdf`: classify the extracted text, parse it, refuse documents
whose natural key is already invoiced, and insert into the active collection
only when the key is not already present.  The PDF byte handling of the
source is external (`pdfplumber`); the model receives the extracted text and
tables. -/
def process_pdf (st : State) (text : String) (filename : String) (tables : List PTable) :
    State × Option PdfStatus :=
  match detect_type text with
  | some DocType.preventivo =>
    let doc := parse_preventivo text filename tables
    -- `fatturati = [f.get('pratica_hertz') for f in fatture_generate]`
    if doc.pratica_hertz ∈ invoicedPrevKeys st then (st, some PdfStatus.prevFatturato)
    else
      -- `existing = [p['pratica_hertz'] for p in preventivi]`
      if doc.pratica_hertz ∈ prevKeys st then (st, some PdfStatus.prevOk)
      else ({ st with preventivi := st.preventivi ++ [doc] }, some PdfStatus.prevOk)
  | some DocType.purchase_order =>
    let doc := parse_purchase_order text filename
    if doc.po_number ∈ invoicedPoKeys st then (st, some PdfStatus.poFatturato)
    else
      if doc.po_number ∈ poKeys st then (st, some PdfStatus.poOk)
      else ({ st with purchase_orders := st.purchase_orders ++ [doc] }, some PdfStatus.poOk)
  | none => (st, none)

/-- `is_po_invoiced`: membership of the number among the generated-invoice
records. -/
def is_po_invoiced (st : State) (po_number : Option String) : Bool :=
  (st.fatture_generate.map (fun f => f.po_number)).contains po_number

/-- The inner loop of the matcher in `get_stats` for one estimate: scan the
active purchase orders, stop at the first one sharing the case id
(the loop `break`s there whether or not it is invoiced), and yield the pair
only when that first one is not invoiced. -/
def matchForPrev (st : State) (prev : Preventivo) : Option (Preventivo × PurchaseOrder) :=
  match st.purchase_orders.find? (fun po => prev.pratica_hertz == po.pratica_hertz) with
  | some po => if is_po_invoiced st po.po_number then none else some (prev, po)
  | none => none

/-- The `matches` list `get_stats` builds: a pure read of the state. -/
def computeMatches (st : State) : List (Preventivo × PurchaseOrder) :=
  st.preventivi.foldl (fun acc prev => acc ++ (matchForPrev st prev).toList) []

/-- Stated from the claim's words, for comparison with `computeMatches`: pair
every active estimate with the first **non-invoiced** active purchase order
sharing its case id (invoiced purchase orders excluded before the
first-match selection). -/
def computeMatchesClaim (st : State) : List (Preventivo × PurchaseOrder) :=
  st.preventivi.filterMap (fun prev =>
    ((st.purchase_orders.filter (fun po => !is_po_invoiced st po.po_number)).find?
      (fun po => prev.pratica_hertz == po.pratica_hertz)).map (fun po => (prev, po)))

/-! ### The invoice generator -/

/-- Outcome oracle for the fallible effects inside `generate_xml`:
`renderOk` for the `minidom` re-parse/pretty-print of the document tree,
`writeOk` for writing the invoice file, `saveOk` for `save_data()`.  A raised
exception escapes the method, leaving `self.data` as mutated so far; the
model returns that state in `Except.error`. -/
structure GenEnv where
  renderOk : Bool
  writeOk : Bool
  saveOk : Bool
deriving DecidableEq, Repr

/-- The year-rollover block of `generate_xml`: when the stored numbering year
differs from the current calendar year, update it and reset both category
counters. -/
def yearRollover (currentYear : Nat) (cfg : Config) : Config :=
  if cfg.year ≠ currentYear then
    { cfg with year := currentYear, last_number_hg := 0, last_number_hm := 0 }
  else cfg

/-- The category-selection block of `generate_xml`: increment the counter of
the selected category and return the updated config, the issued number and
the numbering suffix. -/
def bumpCounter (has_tyres : Bool) (cfg : Config) : Config × Nat × String :=
  if has_tyres then
    ({ cfg with last_number_hg := cfg.last_number_hg + 1 }, cfg.last_number_hg + 1, "HG")
  else
    ({ cfg with last_number_hm := cfg.last_number_hm + 1 }, cfg.last_number_hm + 1, "HM")

/-- The `date_prefix` local of `generate_xml`: the purchase order's
normalised date with the hyphens removed and a trailing underscore, empty
when the date is unset. -/
def dateTag (po_date : Option String) : String :=
  match po_date with
  | none => ""
  | some d => if d = "" then "" else strReplace d '-' "" ++ "_"

/-- `generate_xml(match)`: the repository mutations and outputs of the
generator, in the source's order — year rollover, counter increment, tax
computation, document rendering (fallible), filename derivation, invoice
file write (fallible), record append, removal of the consumed records by
natural key, state save (fallible).  On a failure the state mutated so far
is returned in `Except.error`. -/
def generate_xml (env : GenEnv) (currentYear : Nat) (st : State)
    (prev : Preventivo) (po : PurchaseOrder) :
    Except State (State × String × ℚ) :=
  let cfg1 := yearRollover currentYear st.config
  let bumped := bumpCounter po.has_tyres cfg1
  let invoice_number := bumped.2.1
  let numbering_suffix := bumped.2.2
  let stB := { st with config := bumped.1 }
  let total_without_tax := (prev.items.map Item.total).sum
  let vat_amount := total_without_tax * (22 / 100 : ℚ)
  let total := total_without_tax + vat_amount
  if !env.renderOk then Except.error stB
  else
    let targa := pyOrElse prev.targa po.targa "NOTARGA"
    let po_date := po.date
    let date_tag := dateTag po_date
    let invoice_str := zfill3 invoice_number
    -- the filename the source builds does not use `date_tag` (`date_prefix`)
    let filename := "Fatt_" ++ invoice_str ++ "_PO_" ++ pyShow po.po_number ++ "_" ++ targa ++ ".xml"
    let _ := date_tag
    if !env.writeOk then Except.error stB
    else
      let fat : Fattura :=
        { po_number := po.po_number
          targa := targa
          pratica_hertz := prev.pratica_hertz
          filename := filename
          numero_fattura := invoice_number
          tipo := numbering_suffix
          totale := total
          data_po := po_date }
      let stC := { stB with fatture_generate := stB.fatture_generate ++ [fat] }
      let stD := { stC with
                   preventivi := stC.preventivi.filter
                     (fun p => p.pratica_hertz != prev.pratica_hertz)
                   purchase_orders := stC.purchase_orders.filter
                     (fun p => p.po_number != po.po_number) }
      if !env.saveOk then Except.error stD
      else Except.ok (stD, filename, total)

/-! ### Statement abbreviations for the claims

Each `...Concl` is the conclusion of one claim's theorem, abbreviated so the
witness can restate it at a concrete input. -/

/-- Conclusion of the numbering claim: a successful `generate_xml` appends
one record whose number is the selected category's counter — taken after the
year rollover, so `0` when the stored year differs from the current one —
plus one, with the matching tag; the selected counter ends at the issued
number, the other counter keeps its post-rollover value, the stored year ends
at the current year, and after a year change the issued number is 1. -/
def GenNumberConcl (cy : Nat) (st : State) (po : PurchaseOrder) (st' : State) : Prop :=
  ∃ f : Fattura,
    st'.fatture_generate = st.fatture_generate ++ [f] ∧
    f.numero_fattura =
      (if po.has_tyres then (if st.config.year = cy then st.config.last_number_hg else 0)
       else (if st.config.year = cy then st.config.last_number_hm else 0)) + 1 ∧
    f.tipo = (if po.has_tyres then "HG" else "HM") ∧
    st'.config.last_number_hg =
      (if po.has_tyres then f.numero_fattura
       else (if st.config.year = cy then st.config.last_number_hg else 0)) ∧
    st'.config.last_number_hm =
      (if po.has_tyres then (if st.config.year = cy then st.config.last_number_hm else 0)
       else f.numero_fattura) ∧
    st'.config.year = cy ∧
    (st.config.year ≠ cy → f.numero_fattura = 1)

/-- Conclusion of the failure-frame claim as the code realises it: a render
or write failure returns an error state whose collections and invoice records
are untouched but whose counter for the selected category is already
advanced (and the year rollover already applied). -/
def GenFailFrameConcl (cy : Nat) (st : State) (po : PurchaseOrder)
    (out : Except State (State × String × ℚ)) : Prop :=
  ∃ stE : State, out = Except.error stE ∧
    stE.preventivi = st.preventivi ∧
    stE.purchase_orders = st.purchase_orders ∧
    stE.fatture_generate = st.fatture_generate ∧
    stE.config.year = cy ∧
    stE.config.last_number_hg =
      (if st.config.year = cy then st.config.last_number_hg else 0) +
        (if po.has_tyres then 1 else 0) ∧
    stE.config.last_number_hm =
      (if st.config.year = cy then st.config.last_number_hm else 0) +
        (if po.has_tyres then 0 else 1)

/-- Conclusion of the frame claim on a successful `generate_xml`: removal is
by natural key over the whole collections, exactly one record is appended,
and — when no year rollover happens — the stored year and the other
category's counter are unchanged. -/
def GenFrameConcl (cy : Nat) (st : State) (prev : Preventivo) (po : PurchaseOrder)
    (st' : State) : Prop :=
  (∀ p : Preventivo, p ∈ st'.preventivi ↔
    p ∈ st.preventivi ∧ p.pratica_hertz ≠ prev.pratica_hertz) ∧
  (∀ q : PurchaseOrder, q ∈ st'.purchase_orders ↔
    q ∈ st.purchase_orders ∧ q.po_number ≠ po.po_number) ∧
  (∃ f : Fattura, st'.fatture_generate = st.fatture_generate ++ [f]) ∧
  (st.config.year = cy →
    st'.config.year = st.config.year ∧
    (po.has_tyres = true → st'.config.last_number_hm = st.config.last_number_hm) ∧
    (po.has_tyres = false → st'.config.last_number_hg = st.config.last_number_hg))

/-- Conclusion of the ingestion de-duplication claim, for one ingest call. -/
def DedupConcl (st : State) (text fn : String) (tables : List PTable) : Prop :=
  ((prevKeys st).Nodup → (prevKeys (process_pdf st text fn tables).1).Nodup) ∧
  ((poKeys st).Nodup → (poKeys (process_pdf st text fn tables).1).Nodup) ∧
  (detect_type text = some DocType.preventivo →
    (parse_preventivo text fn tables).pratica_hertz ∈ invoicedPrevKeys st →
    process_pdf st text fn tables = (st, some PdfStatus.prevFatturato)) ∧
  (detect_type text = some DocType.purchase_order →
    (parse_purchase_order text fn).po_number ∈ invoicedPoKeys st →
    process_pdf st text fn tables = (st, some PdfStatus.poFatturato)) ∧
  (detect_type text = some DocType.preventivo →
    (parse_preventivo text fn tables).pratica_hertz ∈ prevKeys st →
    (process_pdf st text fn tables).1 = st) ∧
  (detect_type text = some DocType.purchase_order →
    (parse_purchase_order text fn).po_number ∈ poKeys st →
    (process_pdf st text fn tables).1 = st) ∧
  ((prevKeys st).Nodup → detect_type text = some DocType.preventivo →
    (parse_preventivo text fn tables).pratica_hertz ∈ prevKeys st →
    List.count (parse_preventivo text fn tables).pratica_hertz
      (prevKeys (process_pdf st text fn tables).1) = 1)

/-- Conclusion of the unset-natural-key claim, for one ingest call. -/
def UnsetKeyConcl (st : State) (text fn : String) (tables : List PTable) : Prop :=
  (List.count none (prevKeys st) ≤ 1 →
    List.count none (prevKeys (process_pdf st text fn tables).1) ≤ 1) ∧
  (List.count none (poKeys st) ≤ 1 →
    List.count none (poKeys (process_pdf st text fn tables).1) ≤ 1) ∧
  (detect_type text = some DocType.preventivo →
    (parse_preventivo text fn tables).pratica_hertz = none →
    none ∈ prevKeys st →
    (process_pdf st text fn tables).1.preventivi = st.preventivi) ∧
  (detect_type text = some DocType.purchase_order →
    (parse_purchase_order text fn).po_number = none →
    none ∈ poKeys st →
    (process_pdf st text fn tables).1.purchase_orders = st.purchase_orders)

/-- Conclusion of the plate-suffix claim: the stored plate is the matched
token with all trailing `T`s stripped, which for a token ending in exactly
one `T` is the token without its final character, and for a token not ending
in `T` is the token itself. -/
def TargaConcl (text fn : String) (tables : List PTable) (tok : List Char) : Prop :=
  (parse_preventivo text fn tables).targa = some (rstripT (String.mk tok)) ∧
  (tok.getLast? = some 'T' → tok.dropLast.getLast? ≠ some 'T' →
    rstripT (String.mk tok) = String.mk tok.dropLast) ∧
  (tok.getLast? ≠ some 'T' → rstripT (String.mk tok) = String.mk tok)

/-! ### Concrete instances used by the witnesses and counterexamples -/

/-- C1 witness: empty repository, stale numbering year. -/
def stC1 : State := ⟨[], [], [], ⟨2, 5, 2025⟩⟩

def prevC1 : Preventivo := ⟨"e1.pdf", none, some "9", none, none, none, [], 0⟩

def poC1 : PurchaseOrder := ⟨"p1.pdf", some "777", some "9", none, none, true, "d"⟩

def fatC1 : Fattura :=
  ⟨some "777", "NOTARGA", some "9", "Fatt_001_PO_777_NOTARGA.xml", 1, "HG", 0, none⟩

def stC1out : State := ⟨[], [], [fatC1], ⟨1, 0, 2026⟩⟩

/-- C2: one matched pair, current year, a render failure. -/
def prevC2 : Preventivo := ⟨"e2.pdf", none, some "11", none, none, none, [], 0⟩

def poC2 : PurchaseOrder := ⟨"p2.pdf", some "222", some "11", none, none, false, ""⟩

def stC2 : State := ⟨[prevC2], [poC2], [], ⟨0, 5, 2026⟩⟩

def stC2err : State := ⟨[prevC2], [poC2], [], ⟨0, 6, 2026⟩⟩

/-- C3 witness: an estimate with case id 1001 already active. -/
def prevC3 : Preventivo := ⟨"old.pdf", none, some "1001", none, none, none, [], 0⟩

def stC3 : State := ⟨[prevC3], [], [], ⟨0, 0, 2026⟩⟩

def tC3 : String := "PREVENTIVO Pratica Hertz: 1001"

/-- C4: the first purchase order sharing the case id is invoiced, a later
one is not. -/
def prevC4 : Preventivo := ⟨"e4.pdf", none, some "1001", none, none, none, [], 0⟩

def poC4a : PurchaseOrder := ⟨"a4.pdf", some "A", some "1001", none, none, false, ""⟩

def poC4b : PurchaseOrder := ⟨"b4.pdf", some "B", some "1001", none, none, false, ""⟩

def fatC4 : Fattura := ⟨some "A", "X", some "1001", "f.xml", 1, "HM", 0, none⟩

def stC4 : State := ⟨[prevC4], [poC4a, poC4b], [fatC4], ⟨0, 0, 2026⟩⟩

/-- C5: a matched pair whose purchase order carries a normalised date. -/
def prevC5 : Preventivo := ⟨"e5.pdf", none, some "9", none, none, none, [], 0⟩

def poC5 : PurchaseOrder :=
  ⟨"p5.pdf", some "777", some "9", some "AB123CD", some "2024-12-25", false, "d"⟩

def stC5 : State := ⟨[prevC5], [poC5], [], ⟨0, 0, 2026⟩⟩

def fatC5 : Fattura :=
  ⟨some "777", "AB123CD", some "9", "Fatt_001_PO_777_AB123CD.xml", 1, "HM", 0,
   some "2024-12-25"⟩

def stC5out : State := ⟨[], [], [fatC5], ⟨0, 1, 2026⟩⟩

/-- C7: a priced table row worth 100 and a summary row carrying 9999. -/
def rowC7 : List (Option String) :=
  [some "C1", some "Lavoro", none, none, none, none, none, none, none, none,
   none, none, none, none, none, none, none, none, some "", some "1",
   some "100,00", none, none, some "0", some "100,00"]

def rowTotC7 : List (Option String) :=
  [some "", some "TOTALI", none, none, none, none, none, none, none, none,
   none, none, none, none, none, none, none, none, some "", some "",
   some "", none, none, some "", some "9999"]

/-- C9: a matched pair generated across a year boundary. -/
def prevC9 : Preventivo := ⟨"e9.pdf", none, some "42", none, none, none, [], 0⟩

def poC9 : PurchaseOrder := ⟨"p9.pdf", some "888", some "42", none, none, false, ""⟩

def stC9 : State := ⟨[prevC9], [poC9], [], ⟨7, 5, 2025⟩⟩

def fatC9 : Fattura :=
  ⟨some "888", "NOTARGA", some "42", "Fatt_001_PO_888_NOTARGA.xml", 1, "HM", 0, none⟩

def stC9out : State := ⟨[], [], [fatC9], ⟨0, 1, 2026⟩⟩

/-- C10 witness: an estimate with an unset case id already active. -/
def prevC10 : Preventivo := ⟨"u.pdf", none, none, none, none, none, [], 0⟩

def stC10 : State := ⟨[prevC10], [], [], ⟨0, 0, 2026⟩⟩

def tC10 : String := "PREVENTIVO without labels"

deriving instance DecidableEq for Except

unseal Rat.add Rat.mul Rat.inv Rat.sub Nat.gcd

/-! ## Theorems -/

/-! ### Helper lemmas -/

theorem foldl_append_toList {α β : Type} (g : α → Option β) (l : List α) (init : List β) :
    l.foldl (fun acc x => acc ++ (g x).toList) init = init ++ l.filterMap g := by
  induction l generalizing init with
  | nil => simp
  | cons x xs ih =>
    simp only [List.foldl_cons, ih]
    cases hx : g x <;> simp [List.filterMap_cons, hx]

theorem computeMatches_eq (st : State) :
    computeMatches st = st.preventivi.filterMap (matchForPrev st) := by
  simpa using foldl_append_toList (matchForPrev st) st.preventivi []

theorem matchForPrev_eq_some (st : State) (a p : Preventivo) (q : PurchaseOrder) :
    matchForPrev st a = some (p, q) ↔
      a = p ∧
      st.purchase_orders.find? (fun po => a.pratica_hertz == po.pratica_hertz) = some q ∧
      is_po_invoiced st q.po_number = false := by
  unfold matchForPrev
  cases hf : st.purchase_orders.find? (fun po => a.pratica_hertz == po.pratica_hertz) with
  | none => simp
  | some po =>
    by_cases hi : is_po_invoiced st po.po_number = true
    · simp [hi]
      rintro rfl hq
      rw [← hq]
      simp [hi]
    · simp [hi]
      rintro rfl rfl
      simpa using hi

/-! ### C4 — the matcher -/

/-- C4 (counterexample): with the first case-id-sharing purchase order
already invoiced and a later one not invoiced, the code produces no match at
all, while the claim's reading (invoiced purchase orders excluded before the
first-match selection) pairs the estimate with the later purchase order. -/
theorem computeMatches_skips_later_po :
    computeMatches stC4 = [] ∧
    computeMatchesClaim stC4 = [(prevC4, poC4b)] ∧
    is_po_invoiced stC4 poC4a.po_number = true ∧
    is_po_invoiced stC4 poC4b.po_number = false :=
  ⟨rfl, rfl, rfl, rfl⟩

/-- C4 (amended): a pair is in the matcher's output exactly when the estimate
is active, the purchase order is the first active one sharing its case id,
and that first one's number is not invoiced; an estimate whose first
case-id-sharing purchase order is invoiced yields no match.  The matcher is a
pure read: it is a function of the state. -/
theorem computeMatches_mem (st : State) (p : Preventivo) (q : PurchaseOrder) :
    (p, q) ∈ computeMatches st ↔
      p ∈ st.preventivi ∧
      st.purchase_orders.find? (fun po => p.pratica_hertz == po.pratica_hertz) = some q ∧
      is_po_invoiced st q.po_number = false := by
  rw [computeMatches_eq, List.mem_filterMap]
  constructor
  · rintro ⟨a, ha, hm⟩
    rcases (matchForPrev_eq_some st a p q).1 hm with ⟨rfl, h2, h3⟩
    exact ⟨ha, h2, h3⟩
  · rintro ⟨hp, h2, h3⟩
    exact ⟨p, hp, (matchForPrev_eq_some st p p q).2 ⟨rfl, h2, h3⟩⟩

/-! ### C5 — the generated filename -/

/-- C5: at a matched pair whose purchase order carries the normalised date
2024-12-25, the code's own `date_prefix` computation yields `20241225_`, yet
the filename the call produces is `Fatt_001_PO_777_AB123CD.xml`, which does
not contain the date anywhere — the source computes the prefix and then
builds the filename without it. -/
theorem generate_xml_filename_drops_date :
    generate_xml ⟨true, true, true⟩ 2026 stC5 prevC5 poC5 =
      Except.ok (stC5out, "Fatt_001_PO_777_AB123CD.xml", 0) ∧
    pyTruthy poC5.date = true ∧
    dateTag poC5.date = "20241225_" ∧
    containsSub "Fatt_001_PO_777_AB123CD.xml" "20241225" = false :=
  ⟨by decide, by decide, by decide, by decide⟩

/-! ### C6 — date normalisation -/

/-- C6: the found date string is re-parsed against the four layouts in the
fixed order day-month-year with slash, day-month-year with hyphen,
month-day-year with slash, month-day-year with hyphen; `25/12/2024` and
`12-25-2024` both normalise to `2024-12-25` (the second via the month-day
fallback), an all-layouts-fail token leaves the date unset, an ambiguous
`05/06/2024` resolves day-first, and in general the result is the day-first
interpretation when it is a valid date, else the month-first one, else
unset (and always unset when the separators disagree or are not date
separators). -/
theorem purchase_order_date_normalization :
    (parse_purchase_order "PURCHASE ORDER # 555\nDate: 25/12/2024\n" "a.pdf").date =
      some "2024-12-25" ∧
    (parse_purchase_order "PURCHASE ORDER # 556\nDate: 12-25-2024\n" "b.pdf").date =
      some "2024-12-25" ∧
    (parse_purchase_order "PURCHASE ORDER # 557\nDate: 31/31/2024\n" "c.pdf").date = none ∧
    normalizePODate ⟨5, true, '/', 6, true, '/', 2024⟩ = some "2024-06-05" ∧
    (∀ rd : RawDate, normalizePODate rd =
      if rd.s1 = rd.s2 ∧ isSep rd.s1 = true then
        match strptimeDate rd.a rd.aTwo rd.b rd.bTwo rd.y with
        | some t => some (isoOf t)
        | none =>
          match strptimeDate rd.b rd.bTwo rd.a rd.aTwo rd.y with
          | some t => some (isoOf t)
          | none => none
      else none) := by
  refine ⟨by decide, by decide, by decide, by decide, ?_⟩
  rintro ⟨a, aTwo, s1, b, bTwo, s2, y⟩
  by_cases hss : s1 = s2
  · subst hss
    by_cases h1 : s1 = '/'
    · subst h1
      cases hd : strptimeDate a aTwo b bTwo y <;>
        cases hm : strptimeDate b bTwo a aTwo y <;>
          simp [normalizePODate, tryLayout, isSep, hd, hm]
    · by_cases h2 : s1 = '-'
      · subst h2
        cases hd : strptimeDate a aTwo b bTwo y <;>
          cases hm : strptimeDate b bTwo a aTwo y <;>
            simp [normalizePODate, tryLayout, isSep, hd, hm]
      · simp [normalizePODate, tryLayout, isSep, h1, h2]
  · have h1 : ¬(s1 = '/' ∧ s2 = '/') := fun hc => hss (hc.1.trans hc.2.symm)
    have h2 : ¬(s1 = '-' ∧ s2 = '-') := fun hc => hss (hc.1.trans hc.2.symm)
    simp [normalizePODate, tryLayout, h1, h2, hss]

/-! ### C7 — the recomputed estimate total -/

/-- C7: for every estimate text and table set, the `totale` of the parsed
record is the sum of the `total` fields of its line items; concretely, a
document whose text and summary row print 9999 but whose only priced row is
worth 100 gets `totale` 100 — the printed amount is never read. -/
theorem preventivo_totale_recomputed :
    (∀ (text fn : String) (tables : List PTable),
      (parse_preventivo text fn tables).totale =
        ((parse_preventivo text fn tables).items.map Item.total).sum) ∧
    (parse_preventivo "PREVENTIVO TOTALI 9999" "c7.pdf" [[rowC7, rowTotC7]]).totale = 100 ∧
    ((parse_preventivo "PREVENTIVO TOTALI 9999" "c7.pdf" [[rowC7, rowTotC7]]).items.map
      Item.total) = [100] := by
  refine ⟨?_, by decide, by decide⟩
  intro text fn tables
  rfl

/-! ### C8 — the plate suffix -/

theorem dropWhile_eq_self_of_head_ne {l : List Char} (hl : l.head? ≠ some 'T') :
    l.dropWhile (fun c => c = 'T') = l := by
  cases l with
  | nil => rfl
  | cons c cs =>
    have hc : ¬ c = 'T' := fun h => hl (by simp [h])
    simp [List.dropWhile_cons, hc]

theorem rstripT_of_getLast_ne {tok : List Char} (h : tok.getLast? ≠ some 'T') :
    rstripT (String.mk tok) = String.mk tok := by
  have hh : tok.reverse.head? ≠ some 'T' := by rwa [List.head?_reverse]
  show String.mk ((tok.reverse.dropWhile (fun c => c = 'T')).reverse) = String.mk tok
  rw [dropWhile_eq_self_of_head_ne hh, List.reverse_reverse]

theorem rstripT_single_suffix {tok : List Char} (h1 : tok.getLast? = some 'T')
    (h2 : tok.dropLast.getLast? ≠ some 'T') :
    rstripT (String.mk tok) = String.mk tok.dropLast := by
  have hsplit : tok.dropLast ++ ['T'] = tok :=
    List.dropLast_append_getLast? 'T' (Option.mem_def.mpr h1)
  have hrev : tok.reverse = 'T' :: tok.dropLast.reverse := by
    rw [← hsplit]
    simp
  have hh : tok.dropLast.reverse.head? ≠ some 'T' := by rwa [List.head?_reverse]
  show String.mk ((tok.reverse.dropWhile (fun c => c = 'T')).reverse) = String.mk tok.dropLast
  rw [hrev, List.dropWhile_cons, if_pos (by decide), dropWhile_eq_self_of_head_ne hh,
    List.reverse_reverse]

/-- C8: whenever the labelled plate pattern matches a token, the stored plate
is that token with its trailing `T`s stripped; for a token ending in exactly
one `T` this is the token without its final character, and a token not
ending in `T` is stored unchanged. -/
theorem preventivo_targa_rstrip (text fn : String) (tables : List PTable) (tok : List Char)
    (h : searchLabeledRun ("Targa:".toList) isUpperAlnum text.toList = some tok) :
    TargaConcl text fn tables tok := by
  refine ⟨?_, fun h1 h2 => rstripT_single_suffix h1 h2, fun h1 => rstripT_of_getLast_ne h1⟩
  have hp : (parse_preventivo text fn tables).targa =
      (searchLabeledRun ("Targa:".toList) isUpperAlnum text.toList).map
        (fun r => rstripT (String.mk r)) := rfl
  rw [hp, h]
  rfl

/-- C8 witness: the token `AB123CDT` matched from a concrete estimate text is
stored as `AB123CD`. -/
theorem preventivo_targa_rstrip_witness :
    TargaConcl "Targa: AB123CDT" "f8.pdf" [] ("AB123CDT".toList) :=
  preventivo_targa_rstrip "Targa: AB123CDT" "f8.pdf" [] ("AB123CDT".toList) (by decide)

/-! ### The generator: counter lemmas -/

theorem bumpRoll_year (cy : Nat) (cfg : Config) (t : Bool) :
    (bumpCounter t (yearRollover cy cfg)).1.year = cy := by
  by_cases hyr : cfg.year = cy <;> cases t <;> simp [yearRollover, bumpCounter, hyr]

theorem bumpRoll_hg (cy : Nat) (cfg : Config) (t : Bool) :
    (bumpCounter t (yearRollover cy cfg)).1.last_number_hg =
      (if cfg.year = cy then cfg.last_number_hg else 0) + (if t then 1 else 0) := by
  by_cases hyr : cfg.year = cy <;> cases t <;> simp [yearRollover, bumpCounter, hyr]

theorem bumpRoll_hm (cy : Nat) (cfg : Config) (t : Bool) :
    (bumpCounter t (yearRollover cy cfg)).1.last_number_hm =
      (if cfg.year = cy then cfg.last_number_hm else 0) + (if t then 0 else 1) := by
  by_cases hyr : cfg.year = cy <;> cases t <;> simp [yearRollover, bumpCounter, hyr]

theorem bumpRoll_num (cy : Nat) (cfg : Config) (t : Bool) :
    (bumpCounter t (yearRollover cy cfg)).2.1 =
      (if t then (if cfg.year = cy then cfg.last_number_hg else 0)
       else (if cfg.year = cy then cfg.last_number_hm else 0)) + 1 := by
  by_cases hyr : cfg.year = cy <;> cases t <;> simp [yearRollover, bumpCounter, hyr]

theorem bumpRoll_tag (cy : Nat) (cfg : Config) (t : Bool) :
    (bumpCounter t (yearRollover cy cfg)).2.2 = (if t then "HG" else "HM") := by
  by_cases hyr : cfg.year = cy <;> cases t <;> simp [yearRollover, bumpCounter, hyr]

/-- A successful call has every oracle flag true, and the result components
are the ones the success path builds. -/
theorem generate_xml_ok_elim (env : GenEnv) (cy : Nat) (st : State)
    (prev : Preventivo) (po : PurchaseOrder) (st' : State) (fn : String) (tot : ℚ)
    (h : generate_xml env cy st prev po = Except.ok (st', fn, tot)) :
    st' =
      { st with
        config := (bumpCounter po.has_tyres (yearRollover cy st.config)).1
        fatture_generate := st.fatture_generate ++
          [{ po_number := po.po_number
             targa := pyOrElse prev.targa po.targa "NOTARGA"
             pratica_hertz := prev.pratica_hertz
             filename := "Fatt_" ++ zfill3 (bumpCounter po.has_tyres (yearRollover cy st.config)).2.1 ++
               "_PO_" ++ pyShow po.po_number ++ "_" ++ pyOrElse prev.targa po.targa "NOTARGA" ++ ".xml"
             numero_fattura := (bumpCounter po.has_tyres (yearRollover cy st.config)).2.1
             tipo := (bumpCounter po.has_tyres (yearRollover cy st.config)).2.2
             totale := ((prev.items.map Item.total).sum) +
               ((prev.items.map Item.total).sum) * (22 / 100 : ℚ)
             data_po := po.date }]
        preventivi := st.preventivi.filter (fun p => p.pratica_hertz != prev.pratica_hertz)
        purchase_orders := st.purchase_orders.filter (fun p => p.po_number != po.po_number) } := by
  obtain ⟨r, w, sv⟩ := env
  cases r with
  | false => simp [generate_xml] at h
  | true =>
    cases w with
    | false => simp [generate_xml] at h
    | true =>
      cases sv with
      | false => simp [generate_xml] at h
      | true =>
        simp only [generate_xml, Bool.not_true, Bool.false_eq_true, if_false,
          Except.ok.injEq, Prod.mk.injEq] at h
        exact h.1.symm

/-! ### C1 — the numbering protocol -/

/-- C1: on every successful `generate_xml` call the issued number is the
selected category's counter plus one, taken after the year rollover (so both
counters are zero and the stored year is the current one when the years
differed), the tag is `HG` for a tyres order and `HM` otherwise, the other
category's counter keeps its post-rollover value, and the first issuance
after a year change is numbered 1. -/
theorem generate_xml_issues_next_number (env : GenEnv) (cy : Nat) (st : State)
    (prev : Preventivo) (po : PurchaseOrder) (st' : State) (fn : String) (tot : ℚ)
    (h : generate_xml env cy st prev po = Except.ok (st', fn, tot)) :
    GenNumberConcl cy st po st' := by
  rw [generate_xml_ok_elim env cy st prev po st' fn tot h]
  refine ⟨_, rfl, ?_, ?_, ?_, ?_, ?_, ?_⟩
  · exact bumpRoll_num cy st.config po.has_tyres
  · exact bumpRoll_tag cy st.config po.has_tyres
  · rw [bumpRoll_hg, bumpRoll_num]
    cases po.has_tyres <;> simp
  · rw [bumpRoll_hm, bumpRoll_num]
    cases po.has_tyres <;> simp
  · exact bumpRoll_year cy st.config po.has_tyres
  · intro hne
    rw [bumpRoll_num]
    simp [hne]

/-- C1 witness: a concrete call across a year boundary issues number 1 with
tag `HG` and resets the other counter. -/
theorem generate_xml_issues_next_number_witness : GenNumberConcl 2026 stC1 poC1 stC1out :=
  generate_xml_issues_next_number ⟨true, true, true⟩ 2026 stC1 prevC1 poC1 stC1out
    "Fatt_001_PO_777_NOTARGA.xml" 0 (by decide)

/-! ### C2 — failure atomicity -/

/-- C2 (counterexample): a render failure on a concrete matched pair leaves
the collections and records untouched but the `HM` counter advanced by one in
the in-memory state — the claim's "neither category counter is advanced" is
false on the code. -/
theorem generate_xml_failure_advances_counter :
    generate_xml ⟨false, true, true⟩ 2026 stC2 prevC2 poC2 = Except.error stC2err ∧
    stC2err.config.last_number_hm = stC2.config.last_number_hm + 1 ∧
    stC2err.preventivi = stC2.preventivi ∧
    stC2err.purchase_orders = stC2.purchase_orders ∧
    stC2err.fatture_generate = stC2.fatture_generate :=
  ⟨by decide, by decide, by decide, by decide, by decide⟩

/-- C2 (amended): when rendering or the invoice-file write fails, the call
returns with no record appended and the active collections unchanged, but
with the selected category's counter already advanced (and the year rollover
already applied) in the in-memory state. -/
theorem generate_xml_failure_frame (env : GenEnv) (cy : Nat) (st : State)
    (prev : Preventivo) (po : PurchaseOrder)
    (h : env.renderOk = false ∨ env.writeOk = false) :
    GenFailFrameConcl cy st po (generate_xml env cy st prev po) := by
  obtain ⟨r, w, sv⟩ := env
  refine ⟨{ st with config := (bumpCounter po.has_tyres (yearRollover cy st.config)).1 },
    ?_, rfl, rfl, rfl, bumpRoll_year cy st.config po.has_tyres,
    bumpRoll_hg cy st.config po.has_tyres, bumpRoll_hm cy st.config po.has_tyres⟩
  rcases h with h | h
  · simp only at h
    subst h
    simp [generate_xml]
  · simp only at h
    subst h
    cases r with
    | false => simp [generate_xml]
    | true => simp [generate_xml]

/-- C2 witness: the failure frame at a concrete render failure. -/
theorem generate_xml_failure_frame_witness :
    GenFailFrameConcl 2026 stC2 poC2 (generate_xml ⟨false, true, true⟩ 2026 stC2 prevC2 poC2) :=
  generate_xml_failure_frame ⟨false, true, true⟩ 2026 stC2 prevC2 poC2 (Or.inl rfl)

/-! ### C9 — the frame of a successful generation -/

/-- C9 (counterexample): a successful generation whose call happens after a
calendar-year change updates the stored numbering year and resets the
counter of the category that was not selected — they are not left
unchanged. -/
theorem generate_xml_rollover_changes_year :
    generate_xml ⟨true, true, true⟩ 2026 stC9 prevC9 poC9 =
      Except.ok (stC9out, "Fatt_001_PO_888_NOTARGA.xml", 0) ∧
    poC9.has_tyres = false ∧
    stC9out.config.year ≠ stC9.config.year ∧
    stC9out.config.last_number_hg ≠ stC9.config.last_number_hg :=
  ⟨by decide, by decide, by decide, by decide⟩

/-- C9 (amended): a successful `generate_xml` keeps exactly the active
estimates whose case id differs from the matched estimate's and exactly the
active purchase orders whose number differs from the matched order's
(removal by natural key over the whole collections), appends exactly one
invoice record, and — when the stored year already equals the current one —
leaves the stored year and the unselected category's counter unchanged. -/
theorem generate_xml_removes_by_key (env : GenEnv) (cy : Nat) (st : State)
    (prev : Preventivo) (po : PurchaseOrder) (st' : State) (fn : String) (tot : ℚ)
    (h : generate_xml env cy st prev po = Except.ok (st', fn, tot)) :
    GenFrameConcl cy st prev po st' := by
  rw [generate_xml_ok_elim env cy st prev po st' fn tot h]
  refine ⟨?_, ?_, ⟨_, rfl⟩, ?_⟩
  · intro p
    simp [List.mem_filter]
  · intro q
    simp [List.mem_filter]
  · intro hyr
    refine ⟨?_, ?_, ?_⟩
    · rw [bumpRoll_year]
      exact hyr.symm
    · intro ht
      rw [bumpRoll_hm]
      simp [hyr, ht]
    · intro ht
      rw [bumpRoll_hg]
      simp [hyr, ht]

/-- C9 witness: the frame at a concrete successful generation. -/
theorem generate_xml_removes_by_key_witness : GenFrameConcl 2026 stC9 prevC9 poC9 stC9out :=
  generate_xml_removes_by_key ⟨true, true, true⟩ 2026 stC9 prevC9 poC9 stC9out
    "Fatt_001_PO_888_NOTARGA.xml" 0 (by decide)

/-! ### The ingestion gate: branch lemmas -/

theorem process_pdf_prev_invoiced (st : State) (text fn : String) (tables : List PTable)
    (hdt : detect_type text = some DocType.preventivo)
    (hf : (parse_preventivo text fn tables).pratica_hertz ∈ invoicedPrevKeys st) :
    process_pdf st text fn tables = (st, some PdfStatus.prevFatturato) := by
  simp only [process_pdf, hdt]
  rw [if_pos hf]

theorem process_pdf_prev_existing (st : State) (text fn : String) (tables : List PTable)
    (hdt : detect_type text = some DocType.preventivo)
    (hf : (parse_preventivo text fn tables).pratica_hertz ∉ invoicedPrevKeys st)
    (he : (parse_preventivo text fn tables).pratica_hertz ∈ prevKeys st) :
    process_pdf st text fn tables = (st, some PdfStatus.prevOk) := by
  simp only [process_pdf, hdt]
  rw [if_neg hf, if_pos he]

theorem process_pdf_prev_insert (st : State) (text fn : String) (tables : List PTable)
    (hdt : detect_type text = some DocType.preventivo)
    (hf : (parse_preventivo text fn tables).pratica_hertz ∉ invoicedPrevKeys st)
    (he : (parse_preventivo text fn tables).pratica_hertz ∉ prevKeys st) :
    process_pdf st text fn tables =
      ({ st with preventivi := st.preventivi ++ [parse_preventivo text fn tables] },
       some PdfStatus.prevOk) := by
  simp only [process_pdf, hdt]
  rw [if_neg hf, if_neg he]

theorem process_pdf_po_invoiced (st : State) (text fn : String) (tables : List PTable)
    (hdt : detect_type text = some DocType.purchase_order)
    (hf : (parse_purchase_order text fn).po_number ∈ invoicedPoKeys st) :
    process_pdf st text fn tables = (st, some PdfStatus.poFatturato) := by
  simp only [process_pdf, hdt]
  rw [if_pos hf]

theorem process_pdf_po_existing (st : State) (text fn : String) (tables : List PTable)
    (hdt : detect_type text = some DocType.purchase_order)
    (hf : (parse_purchase_order text fn).po_number ∉ invoicedPoKeys st)
    (he : (parse_purchase_order text fn).po_number ∈ poKeys st) :
    process_pdf st text fn tables = (st, some PdfStatus.poOk) := by
  simp only [process_pdf, hdt]
  rw [if_neg hf, if_pos he]

theorem process_pdf_po_insert (st : State) (text fn : String) (tables : List PTable)
    (hdt : detect_type text = some DocType.purchase_order)
    (hf : (parse_purchase_order text fn).po_number ∉ invoicedPoKeys st)
    (he : (parse_purchase_order text fn).po_number ∉ poKeys st) :
    process_pdf st text fn tables =
      ({ st with purchase_orders := st.purchase_orders ++ [parse_purchase_order text fn] },
       some PdfStatus.poOk) := by
  simp only [process_pdf, hdt]
  rw [if_neg hf, if_neg he]

theorem prevKeys_append (st : State) (doc : Preventivo) :
    prevKeys { st with preventivi := st.preventivi ++ [doc] } =
      prevKeys st ++ [doc.pratica_hertz] := by
  simp [prevKeys]

theorem poKeys_append (st : State) (doc : PurchaseOrder) :
    poKeys { st with purchase_orders := st.purchase_orders ++ [doc] } =
      poKeys st ++ [doc.po_number] := by
  simp [poKeys]

theorem nodup_append_singleton {α : Type} {l : List α} {a : α}
    (hd : l.Nodup) (ha : a ∉ l) : (l ++ [a]).Nodup := by
  rw [List.nodup_append]
  exact ⟨hd, List.nodup_singleton a, fun x hx hx2 => by
    rw [List.mem_singleton] at hx2
    rw [hx2] at hx
    exact ha hx⟩

/-! ### C3 — ingestion never duplicates or reopens -/

theorem count_eq_one_of_mem_nodup {α : Type} [BEq α] [LawfulBEq α] {l : List α} {a : α}
    (hd : l.Nodup) (h : a ∈ l) : l.count a = 1 := by
  induction l with
  | nil => cases h
  | cons b bs ih =>
    rcases List.mem_cons.1 h with rfl | hmem
    · have hb : bs.count a = 0 :=
        List.count_eq_zero.2 (List.nodup_cons.1 hd).1
      simp [List.count_cons, hb]
    · have hne : b ≠ a := by
        rintro rfl
        exact (List.nodup_cons.1 hd).1 hmem
      rw [List.count_cons, ih (List.nodup_cons.1 hd).2 hmem]
      simp [hne]

/-- C3: one ingest call preserves key uniqueness of both active collections;
a document whose natural key is among the invoiced records is answered with
the already-invoiced status and the whole state unchanged; a document whose
key is already active leaves the state unchanged; and under the uniqueness
invariant an already-active key still has exactly one active record after
the call. -/
theorem process_pdf_dedup (st : State) (text fn : String) (tables : List PTable) :
    DedupConcl st text fn tables := by
  unfold DedupConcl
  cases hdt : detect_type text with
  | none =>
    have hres : process_pdf st text fn tables = (st, none) := by
      simp only [process_pdf, hdt]
    refine ⟨?_, ?_, ?_, ?_, ?_, ?_, ?_⟩ <;> rw [hres] <;> simp
  | some dt =>
    cases dt with
    | preventivo =>
      by_cases hf : (parse_preventivo text fn tables).pratica_hertz ∈ invoicedPrevKeys st
      · have hres := process_pdf_prev_invoiced st text fn tables hdt hf
        refine ⟨?_, ?_, ?_, ?_, ?_, ?_, ?_⟩ <;> rw [hres]
        · exact id
        · exact id
        · intro _ _
          rfl
        · intro hdt2 _
          simp at hdt2
        · intro _ _
          rfl
        · intro hdt2 _
          simp at hdt2
        · intro hd _ hm
          exact count_eq_one_of_mem_nodup hd hm
      · by_cases he : (parse_preventivo text fn tables).pratica_hertz ∈ prevKeys st
        · have hres := process_pdf_prev_existing st text fn tables hdt hf he
          refine ⟨?_, ?_, ?_, ?_, ?_, ?_, ?_⟩ <;> rw [hres]
          · exact id
          · exact id
          · intro _ hm
            exact absurd hm hf
          · intro hdt2 _
            simp at hdt2
          · intro _ _
            rfl
          · intro hdt2 _
            simp at hdt2
          · intro hd _ hm
            exact count_eq_one_of_mem_nodup hd hm
        · have hres := process_pdf_prev_insert st text fn tables hdt hf he
          refine ⟨?_, ?_, ?_, ?_, ?_, ?_, ?_⟩ <;> rw [hres]
          · intro hd
            rw [prevKeys_append]
            exact nodup_append_singleton hd he
          · intro hd
            simpa [poKeys] using hd
          · intro _ hm
            exact absurd hm hf
          · intro hdt2 _
            simp at hdt2
          · intro _ hm
            exact absurd hm he
          · intro hdt2 _
            simp at hdt2
          · intro _ _ hm
            exact absurd hm he
    | purchase_order =>
      by_cases hf : (parse_purchase_order text fn).po_number ∈ invoicedPoKeys st
      · have hres := process_pdf_po_invoiced st text fn tables hdt hf
        refine ⟨?_, ?_, ?_, ?_, ?_, ?_, ?_⟩ <;> rw [hres]
        · exact id
        · exact id
        · intro hdt2 _
          simp at hdt2
        · intro _ _
          rfl
        · intro hdt2 _
          simp at hdt2
        · intro _ _
          rfl
        · intro _ hdt2 _
          simp at hdt2
      · by_cases he : (parse_purchase_order text fn).po_number ∈ poKeys st
        · have hres := process_pdf_po_existing st text fn tables hdt hf he
          refine ⟨?_, ?_, ?_, ?_, ?_, ?_, ?_⟩ <;> rw [hres]
          · exact id
          · exact id
          · intro hdt2 _
            simp at hdt2
          · intro _ hm
            exact absurd hm hf
          · intro hdt2 _
            simp at hdt2
          · intro _ _
            rfl
          · intro _ hdt2 _
            simp at hdt2
        · have hres := process_pdf_po_insert st text fn tables hdt hf he
          refine ⟨?_, ?_, ?_, ?_, ?_, ?_, ?_⟩ <;> rw [hres]
          · intro hd
            simpa [prevKeys] using hd
          · intro hd
            rw [poKeys_append]
            exact nodup_append_singleton hd he
          · intro hdt2 _
            simp at hdt2
          · intro _ hm
            exact absurd hm hf
          · intro hdt2 _
            simp at hdt2
          · intro _ hm
            exact absurd hm he
          · intro _ hdt2 _
            simp at hdt2

/-- C3 witness: re-ingesting an estimate whose case id 1001 is already
active leaves the state unchanged. -/
theorem process_pdf_dedup_witness :
    (process_pdf stC3 tC3 "f3.pdf" []).1 = stC3 := by
  have h := (process_pdf_dedup stC3 tC3 "f3.pdf" []).2.2.2.2.1 (by decide) (by decide)
  rw [h]

/-! ### C10 — unset natural keys -/

/-- C10: the ingest checks treat an unset natural key like any other value:
one ingest call never lets the number of active estimates with an unset case
id (or active purchase orders with an unset number) grow beyond one, and
ingesting a document that parses to an unset key while an unset-key record is
already active leaves that collection unchanged. -/
theorem process_pdf_unset_key (st : State) (text fn : String) (tables : List PTable) :
    UnsetKeyConcl st text fn tables := by
  unfold UnsetKeyConcl
  cases hdt : detect_type text with
  | none =>
    have hres : process_pdf st text fn tables = (st, none) := by
      simp only [process_pdf, hdt]
    refine ⟨?_, ?_, ?_, ?_⟩ <;> rw [hres] <;> simp
  | some dt =>
    cases dt with
    | preventivo =>
      by_cases hf : (parse_preventivo text fn tables).pratica_hertz ∈ invoicedPrevKeys st
      · have hres := process_pdf_prev_invoiced st text fn tables hdt hf
        refine ⟨?_, ?_, ?_, ?_⟩ <;> rw [hres]
        · exact id
        · exact id
        · intro _ _ _
          rfl
        · intro hdt2 _ _
          simp at hdt2
      · by_cases he : (parse_preventivo text fn tables).pratica_hertz ∈ prevKeys st
        · have hres := process_pdf_prev_existing st text fn tables hdt hf he
          refine ⟨?_, ?_, ?_, ?_⟩ <;> rw [hres]
          · exact id
          · exact id
          · intro _ _ _
            rfl
          · intro hdt2 _ _
            simp at hdt2
        · have hres := process_pdf_prev_insert st text fn tables hdt hf he
          refine ⟨?_, ?_, ?_, ?_⟩ <;> rw [hres]
          · intro hc
            rw [prevKeys_append, List.count_append]
            cases hk : (parse_preventivo text fn tables).pratica_hertz with
            | none =>
              rw [hk] at he
              have h0 : List.count (none : Option String) (prevKeys st) = 0 :=
                List.count_eq_zero.2 he
              simp [h0, List.count_cons]
            | some s =>
              simpa [List.count_cons] using hc
          · intro hc
            simpa [poKeys] using hc
          · intro _ hkey hmem
            rw [← hkey] at hmem
            exact absurd hmem he
          · intro hdt2 _ _
            simp at hdt2
    | purchase_order =>
      by_cases hf : (parse_purchase_order text fn).po_number ∈ invoicedPoKeys st
      · have hres := process_pdf_po_invoiced st text fn tables hdt hf
        refine ⟨?_, ?_, ?_, ?_⟩ <;> rw [hres]
        · exact id
        · exact id
        · intro hdt2 _ _
          simp at hdt2
        · intro _ _ _
          rfl
      · by_cases he : (parse_purchase_order text fn).po_number ∈ poKeys st
        · have hres := process_pdf_po_existing st text fn tables hdt hf he
          refine ⟨?_, ?_, ?_, ?_⟩ <;> rw [hres]
          · exact id
          · exact id
          · intro hdt2 _ _
            simp at hdt2
          · intro _ _ _
            rfl
        · have hres := process_pdf_po_insert st text fn tables hdt hf he
          refine ⟨?_, ?_, ?_, ?_⟩ <;> rw [hres]
          · intro hc
            simpa [prevKeys] using hc
          · intro hc
            rw [poKeys_append, List.count_append]
            cases hk : (parse_purchase_order text fn).po_number with
            | none =>
              rw [hk] at he
              have h0 : List.count (none : Option String) (poKeys st) = 0 :=
                List.count_eq_zero.2 he
              simp [h0, List.count_cons]
            | some s =>
              simpa [List.count_cons] using hc
          · intro hdt2 _ _
            simp at hdt2
          · intro _ hkey hmem
            rw [← hkey] at hmem
            exact absurd hmem he

/-- C10 witness: a second estimate with no extractable case id, while an
unset-key estimate is active, leaves the collection unchanged. -/
theorem process_pdf_unset_key_witness :
    (process_pdf stC10 tC10 "f10.pdf" []).1.preventivi = stC10.preventivi := by
  have h := (process_pdf_unset_key stC10 tC10 "f10.pdf" []).2.2.1
    (by decide) (by decide) (by decide)
  rw [h]

end Hertz
